import Mathlib

/-!
Shallow embedding of `crates/cli/src/build/gitlab.rs` (the GitLab collection
engine of landscape2): the URL router (`parse_gitlab_url`), the credential
resolver (`parse_gitlab_tokens_env`), the instance client-pool construction
(`create_gitlab_pool`), the repository fetcher (`collect_repository_data` /
`collect_project_data`) and the collection orchestrator
(`collect_gitlab_data`), together with theorems checking the specification's
claims about them.

Modelling conventions:
- Rust `String` is Lean `String`; character-level operations (`trim`,
  `split`, `starts_with`, `trim_end_matches`, `to_lowercase`, `contains`)
  are implemented on `List Char` exactly following the Rust semantics
  (ASCII inputs; the Unicode extensions of `trim`/`to_lowercase` are not
  exercised by any claim).
- `chrono::DateTime<Utc>` timestamps are modelled as `Int` seconds;
  `chrono::Duration::days 7` is `7 * 86400`.
- `anyhow::Result<T>` is `Except Unit T`: no claim inspects error text.
- `BTreeMap` values are association lists; the repository-URL keys are
  unique by construction, so only the key-to-value mapping matters.
- Network and process effects are an explicit oracle (`Oracle`): the
  environment variable value, the parsed cache file content, per-token
  client-construction success, and the per-URL API call outcomes. The
  `async` concurrency (`buffer_unordered`) only affects completion order,
  which the final `BTreeMap` collection discards; the model is the
  sequential denotation.
- The `f64` language-percentage scaling `(percentage * 1000.0) as i64` is
  abstracted: parsed language maps carry already-scaled `Int` values, since
  no claim concerns those numeric values (floating point).
-/

/-! ## Character-level string helpers (Rust `str` operations) -/

/-- Rust `str::starts_with` via `List.isPrefixOf` on the characters. -/
def strStartsWith (pre s : String) : Bool :=
  pre.data.isPrefixOf s.data

/-- Substring occurrence test: does `sub` occur contiguously in `s`?
Models Rust `str::contains` with a literal pattern. -/
def containsSub (sub : List Char) : List Char → Bool
  | [] => sub.isEmpty
  | c :: rest => sub.isPrefixOf (c :: rest) || containsSub sub rest

/-- Rust `str::contains` on `String`s. -/
def strContains (sub s : String) : Bool :=
  containsSub sub.data s.data

/-- The whitespace characters relevant to the inputs at hand;
models Rust `char::is_whitespace` (ASCII cases). -/
def isWS (c : Char) : Bool :=
  c = ' ' || c = '\t' || c = '\n' || c = '\r'

/-- Drop leading whitespace characters. -/
def dropLeadWS : List Char → List Char
  | [] => []
  | c :: rest => if isWS c then dropLeadWS rest else c :: rest

/-- Rust `str::trim`: remove leading and trailing whitespace. -/
def trimStr (s : String) : String :=
  String.mk (dropLeadWS (dropLeadWS s.data.reverse).reverse)

/-- Split a character list at every occurrence of `sep`; models Rust
`str::split(sep: char)`, which yields `[""]` on the empty string. -/
def splitChar (sep : Char) : List Char → List (List Char)
  | [] => [[]]
  | c :: rest =>
    let r := splitChar sep rest
    if c = sep then [] :: r
    else
      match r with
      | h :: t => (c :: h) :: t
      | [] => [[c]]

/-- Rust `str::split(sep: char)` on `String`s. -/
def strSplitChar (sep : Char) (s : String) : List String :=
  (splitChar sep s.data).map String.mk

/-- Strip all trailing `'/'` characters, on the reversed character list. -/
def slashAux : List Char → List Char
  | '/' :: rest => slashAux rest
  | l => l

/-- Rust `str::trim_end_matches('/')`: strip all trailing slashes. -/
def dropTrailSlashes (s : String) : String :=
  String.mk (slashAux s.data.reverse).reverse

/-- Strip all trailing `".git"` repetitions, on the reversed character
list (`".git"` reversed is `"tig."`). -/
def gitAux : List Char → List Char
  | 't' :: 'i' :: 'g' :: '.' :: rest => gitAux rest
  | l => l

/-- Rust `str::trim_end_matches(".git")` on the characters of the path. -/
def trimEndGit (l : List Char) : List Char :=
  (gitAux l.reverse).reverse

/-- ASCII lower-casing of one character; models Rust `char::to_lowercase`
on the ASCII range (instance URLs compared here are ASCII). -/
def charLower (c : Char) : Char :=
  if 'A' ≤ c ∧ c ≤ 'Z' then Char.ofNat (c.toNat + 32) else c

/-- Rust `str::to_lowercase` (ASCII range). -/
def lowerStr (s : String) : String :=
  String.mk (s.data.map charLower)

/-! ## URL router: `GITLAB_REPO_URL` and `parse_gitlab_url`

The regex is `^(?P<base>https://[^/]+)/(?P<path>.+?)/?$` (gitlab.rs:583).
Its semantics, unfolded: the string must start with `https://`, followed by
a non-empty host (the characters up to the first `/` after the scheme,
`[^/]+` being unable to cross a slash), a `/`, and a non-empty `path`
group; the lazy `.+?` followed by `/?$` makes the path group the rest of
the string minus at most one trailing `/` (kept when dropping it would
empty the group), and `.` excludes `'\n'`. -/

/-- The characters of the literal `https://` scheme required by the regex. -/
def httpsChars : List Char := ['h', 't', 't', 'p', 's', ':', '/', '/']

/-- Split a character list at its first `'/'`:
`some (before, after)` or `none` when no slash occurs. -/
def splitFirstSlash : List Char → Option (List Char × List Char)
  | [] => none
  | c :: rest =>
    if c = '/' then some ([], rest)
    else
      match splitFirstSlash rest with
      | some (pre, post) => some (c :: pre, post)
      | none => none

/-- The regex engine's choice for the lazy path group followed by `/?$`:
drop one trailing slash unless that would empty the group. -/
def stripSlash (p : List Char) : List Char :=
  if 2 ≤ p.length ∧ p.getLast? = some '/' then p.dropLast else p

/-- The `path` capture group of `GITLAB_REPO_URL` applied to the text after
the first slash following the host: non-empty, one optional trailing slash
consumed, `'\n'` refused by `.`. -/
def pathGroup (after : List Char) : Option (List Char) :=
  if after = [] then none
  else
    let p := stripSlash after
    if '\n' ∈ p then none else some p

/-- `GITLAB_REPO_URL.captures` (gitlab.rs:583): the `base` and `path`
capture groups, or `none` when the regex does not match. -/
def regexMatch (s : List Char) : Option (List Char × List Char) :=
  if httpsChars.isPrefixOf s then
    match splitFirstSlash (s.drop 8) with
    | some (host, after) =>
      if host = [] then none
      else
        match pathGroup after with
        | some p => some (httpsChars ++ host, p)
        | none => none
    | none => none
  else none

/-- `parse_gitlab_url` (gitlab.rs:588-599): skip URLs containing
`github.com`, otherwise return the regex captures with trailing `".git"`
stripped from the path. -/
def parse_gitlab_url (repo_url : String) : Option (String × String) :=
  if strContains "github.com" repo_url then none
  else
    match regexMatch repo_url.data with
    | some (base, path) => some (String.mk base, String.mk (trimEndGit path))
    | none => none

/-! ## Credential resolver: `parse_gitlab_tokens_env` (gitlab.rs:180-244) -/

/-- Default GitLab instance URL (gitlab.rs:42). -/
def DEFAULT_GITLAB_URL : String := "https://gitlab.com"

/-- Configuration for a GitLab instance (gitlab.rs:46-49). -/
structure GitlabInstanceConfig where
  base_url : String
  tokens : List String
deriving DecidableEq, Repr

/-- Does a trimmed segment look like an instance URL (gitlab.rs:200)? -/
def isUrlSeg (s : String) : Bool :=
  strStartsWith "http://" s || strStartsWith "https://" s

/-- Split a (token-list) segment on commas, trim each piece and drop the
empty ones (gitlab.rs:204-208 and 227-231). -/
def splitTokens (s : String) : List String :=
  ((strSplitChar ',' s).map trimStr).filter (fun t => t != "")

/-- The cursor loop of `parse_gitlab_tokens_env` (gitlab.rs:191-241) over
the `';'`-separated segments: an empty segment is skipped; a URL-shaped
segment consumes the next segment as its comma-separated token list
(contributing an entry only when at least one usable token results, and
contributing nothing when it is the final segment); any other segment is a
token list for the default instance. -/
def parseParts : List String → List GitlabInstanceConfig
  | [] => []
  | p :: rest =>
    if trimStr p = "" then parseParts rest
    else if isUrlSeg (trimStr p) then
      match rest with
      | [] => []
      | tok :: rest2 =>
        if splitTokens (trimStr tok) = [] then parseParts rest2
        else
          { base_url := dropTrailSlashes (trimStr p),
            tokens := splitTokens (trimStr tok) } :: parseParts rest2
    else
      if splitTokens (trimStr p) = [] then parseParts rest
      else
        { base_url := DEFAULT_GITLAB_URL,
          tokens := splitTokens (trimStr p) } :: parseParts rest

/-- `parse_gitlab_tokens_env` (gitlab.rs:180-244), as a function of the
`GITLAB_TOKENS` environment value: absent or empty means no credentials
(gitlab.rs:181-184), otherwise the segments split on `';'` are parsed. -/
def parse_gitlab_tokens_env (env : Option String) : List GitlabInstanceConfig :=
  match env with
  | none => []
  | some t => if t = "" then [] else parseParts (strSplitChar ';' t)

example : parse_gitlab_tokens_env (some "tok1,tok2") =
    [{ base_url := "https://gitlab.com", tokens := ["tok1", "tok2"] }] := by decide

example : parse_gitlab_url "https://gl.example/grp/proj.git" =
    some ("https://gl.example", "grp/proj") := by decide

example : parse_gitlab_url "http://gl.example/proj" = none := by decide

/-! ## Data model (`landscape2_core::data` as used by gitlab.rs) -/

/-- `Commit`: a commit URL and optional timestamp (seconds). -/
structure Commit where
  url : String
  ts : Option Int
deriving DecidableEq, Repr

/-- `Release`: timestamp and URL of a release. -/
structure Release where
  ts : Option Int
  url : String
deriving DecidableEq, Repr

/-- `Contributors` (imported as `DataContributors`): count and web URL. -/
structure DataContributors where
  count : Nat
  url : String
deriving DecidableEq, Repr

/-- Language name to relative-size metric; the `f64` percentage scaling is
abstracted, values are the already-scaled integers. -/
abbrev Langs := List (String × Int)

/-- `RepositoryGitData`: the snapshot built by `collect_project_data`
(gitlab.rs:297-314). Timestamps are `Int` seconds. -/
structure RepositoryGitData where
  generated_at : Int
  contributors : DataContributors
  description : String
  first_commit : Option Commit
  good_first_issues : Option Nat
  languages : Option Langs
  latest_commit : Commit
  latest_release : Option Release
  license : Option String
  stars : Int
  topics : List String
  url : String
deriving DecidableEq, Repr

/-- The result map of the run: repository URL to snapshot
(`GitData = BTreeMap<String, RepositoryGitData>` as an association list). -/
abbrev GitData := List (String × RepositoryGitData)

/-- `GitLabLicense` (gitlab.rs:618-620). -/
structure GitLabLicense where
  name : String
deriving DecidableEq, Repr

/-- `GitLabProject` (gitlab.rs:602-614): project metadata from the API. -/
structure GitLabProject where
  description : Option String
  default_branch : String
  path_with_namespace : String
  star_count : Int
  topics : List String
  web_url : String
  license : Option GitLabLicense
deriving DecidableEq, Repr

/-! ## Degradable sub-fetches (`GLApi::get_good_first_issues_count`,
`GLApi::get_languages`)

An HTTP interaction is modelled by its observable outcome: either the
transport failed (`send()`/`text()` errored, which the `?` operator
propagates), or a response arrived with a status (success or not) and a
body whose serde parse outcome is `parsed` (`none` = unparseable). -/

/-- Outcome of one direct HTTP API call, parameterised by the type the body
parses to. -/
inductive HttpOutcome (α : Type) where
  | transportError
  | response (statusSuccess : Bool) (parsed : Option α)

/-- `GLApi::get_good_first_issues_count` (gitlab.rs:427-471): transport
errors propagate; a non-success status yields `Ok(None)`; an unparseable
body yields `Ok(None)`; a parsed body yields its `opened` count. -/
def get_good_first_issues_count (h : HttpOutcome Nat) : Except Unit (Option Nat) :=
  match h with
  | HttpOutcome.transportError => Except.error ()
  | HttpOutcome.response statusSuccess parsed =>
    if !statusSuccess then Except.ok none
    else
      match parsed with
      | some n => Except.ok (some n)
      | none => Except.ok none

/-- `GLApi::get_languages` (gitlab.rs:475-513): transport errors propagate;
a non-success status yields `Ok(None)`; an unparseable body PROPAGATES as
an error (the `?` on `serde_json::from_str` at gitlab.rs:495); an empty
parsed map yields `Ok(None)`; otherwise the scaled map is returned. -/
def get_languages (h : HttpOutcome Langs) : Except Unit (Option Langs) :=
  match h with
  | HttpOutcome.transportError => Except.error ()
  | HttpOutcome.response statusSuccess parsed =>
    if !statusSuccess then Except.ok none
    else
      match parsed with
      | none => Except.error ()
      | some langs =>
        if langs = [] then Except.ok none
        else Except.ok (some langs)

/-! ## Repository fetcher: `collect_repository_data` / `collect_project_data` -/

/-- Outcomes of the `GL` trait calls made for one repository; the
commit-related calls are functions of the `ref` they are asked about. -/
structure SubFetches where
  contributors_count : Except Unit Nat
  first_commit : String → Except Unit (Option Commit)
  languages : Except Unit (Option Langs)
  good_first_issues : Except Unit (Option Nat)
  latest_commit : String → Except Unit Commit
  latest_release : Except Unit (Option Release)

/-- `collect_project_data` (gitlab.rs:278-315): the sub-fetches run in
source order, each behind a `?` that aborts the whole repository fetch on
error; on success the snapshot is assembled, with the contributors URL
built from a hard-coded `main` branch (gitlab.rs:301) while the commit
sub-fetches used `gl_project.default_branch` (gitlab.rs:285,293). -/
def collect_project_data (f : SubFetches) (base_url project_path : String)
    (gl_project : GitLabProject) (now : Int) : Except Unit RepositoryGitData :=
  match f.contributors_count with
  | Except.error e => Except.error e
  | Except.ok contributors_count =>
  match f.first_commit gl_project.default_branch with
  | Except.error e => Except.error e
  | Except.ok first_commit =>
  match f.languages with
  | Except.error e => Except.error e
  | Except.ok languages =>
  match f.good_first_issues with
  | Except.error e => Except.error e
  | Except.ok good_first_issues =>
  match f.latest_commit gl_project.default_branch with
  | Except.error e => Except.error e
  | Except.ok latest_commit =>
  match f.latest_release with
  | Except.error e => Except.error e
  | Except.ok latest_release =>
    Except.ok
      { generated_at := now
        contributors :=
          { count := contributors_count
            url := base_url ++ "/" ++ project_path ++ "/-/graphs/main?ref_type=heads" }
        description := gl_project.description.getD ""
        first_commit := first_commit
        good_first_issues := good_first_issues
        languages := languages
        latest_commit := latest_commit
        latest_release := latest_release
        license := gl_project.license.map (fun l => l.name)
        stars := gl_project.star_count
        topics := gl_project.topics
        url := gl_project.web_url }

/-- `collect_repository_data` (gitlab.rs:269-275): parse the URL (an
invalid one is an error), fetch the project metadata (`get_project`, behind
`?`), then collect the project data. -/
def collect_repository_data (get_project : Except Unit GitLabProject)
    (f : SubFetches) (repo_url : String) (now : Int) : Except Unit RepositoryGitData :=
  match parse_gitlab_url repo_url with
  | none => Except.error ()
  | some (base_url, path) =>
    match get_project with
    | Except.error e => Except.error e
    | Except.ok gl_project => collect_project_data f base_url path gl_project now

/-! ## Instance pools: `find_config_for_instance`, `create_gitlab_pool` -/

/-- Normalisation used when matching an instance to its credentials:
trailing slashes stripped, then lower-cased (gitlab.rs:251). -/
def normUrl (s : String) : String :=
  lowerStr (dropTrailSlashes s)

/-- `find_config_for_instance` (gitlab.rs:247-255): first config whose
normalised base URL equals the normalised instance URL. -/
def find_config_for_instance (base_url : String)
    (configs : List GitlabInstanceConfig) : Option GitlabInstanceConfig :=
  configs.find? (fun c => normUrl c.base_url = normUrl base_url)

/-- `create_gitlab_pool` (gitlab.rs:258-265): construct one client per
token sequentially; `GLApi::new` may fail per token (`clientBuild` says
which succeed) and the first failure aborts, propagated by `?`. The pool
value is its client count (the clients themselves are opaque). -/
def create_gitlab_pool (clientBuild : String → String → Bool)
    (base_url : String) : List String → Except Unit Nat
  | [] => Except.ok 0
  | t :: ts =>
    if clientBuild base_url t then
      match create_gitlab_pool clientBuild base_url ts with
      | Except.error e => Except.error e
      | Except.ok n => Except.ok (n + 1)
    else Except.error ()

/-- The pool-construction loop of `collect_gitlab_data` (gitlab.rs:101-109):
for each instance (in `BTreeMap` key order) that has a matching config,
build its pool — the `?` at gitlab.rs:104 propagates any failure out of
`collect_gitlab_data`; instances without a config are skipped with a
warning. Returns the keys of `instance_pools`. -/
def buildPools (clientBuild : String → String → Bool) :
    List (String × List String) → List GitlabInstanceConfig → Except Unit (List String)
  | [], _ => Except.ok []
  | (base_url, _) :: rest, configs =>
    match find_config_for_instance base_url configs with
    | some config =>
      match create_gitlab_pool clientBuild base_url config.tokens with
      | Except.error e => Except.error e
      | Except.ok _ =>
        match buildPools clientBuild rest configs with
        | Except.error e => Except.error e
        | Except.ok pools => Except.ok (base_url :: pools)
    | none => buildPools clientBuild rest configs

/-! ## Collection orchestrator: `collect_gitlab_data` (gitlab.rs:54-177) -/

/-- One landscape item: its optional repository URL list. -/
structure Item where
  repositories : Option (List String)

/-- The external effects `collect_gitlab_data` depends on. -/
structure Oracle where
  /-- Value of the `GITLAB_TOKENS` environment variable. -/
  env : Option String
  /-- Parsed content of the cache file; `none` models a missing, unreadable
  or unparseable cache (all warned about and treated as absent,
  gitlab.rs:81-89). -/
  cacheRead : Option GitData
  /-- Whether `GLApi::new base_url token` succeeds. -/
  clientBuild : String → String → Bool
  /-- Outcome of `GL::get_project` for a given repository URL's project. -/
  get_project : String → Except Unit GitLabProject
  /-- Outcomes of the remaining `GL` calls for a given repository URL. -/
  subf : String → SubFetches
  /-- The current time (`Utc::now()`), in seconds. -/
  now : Int

/-- Seconds per day: `chrono::Duration::days 1`. -/
def day : Int := 86400

/-- `GITLAB_CACHE_TTL` (gitlab.rs:35): cache validity in days. -/
def GITLAB_CACHE_TTL : Int := 7

/-- Lexicographic strict comparison of character lists by code point;
models Rust's `Ord` on `String` (byte-lexicographic, which agrees with
code-point order for UTF-8). -/
def charListLt : List Char → List Char → Bool
  | [], [] => false
  | [], _ :: _ => true
  | _ :: _, [] => false
  | a :: as, b :: bs =>
    if a.toNat < b.toNat then true
    else if b.toNat < a.toNat then false
    else charListLt as bs

/-- Rust `String` ordering as an executable Boolean. -/
def strLtB (a b : String) : Bool :=
  charListLt a.data b.data

/-- Insert a repository URL into the per-instance grouping, keeping
instance keys sorted (the `BTreeMap` order) and appending the URL to its
instance's vector (gitlab.rs:58-70). -/
def insertGrouped (base url : String) :
    List (String × List String) → List (String × List String)
  | [] => [(base, [url])]
  | (k, v) :: rest =>
    if base = k then (k, v ++ [url]) :: rest
    else if strLtB base k then (base, [url]) :: (k, v) :: rest
    else (k, v) :: insertGrouped base url rest

/-- Insert into a sorted string list (ascending), used to model
`Vec::sort` (gitlab.rs:96). -/
def insSorted (x : String) : List String → List String
  | [] => [x]
  | y :: ys => if strLtB y x then y :: insSorted x ys else x :: y :: ys

/-- `Vec::sort` on strings as iterated sorted insertion. -/
def sortStr (l : List String) : List String :=
  l.foldr insSorted []

/-- `Vec::dedup` (gitlab.rs:97): collapse consecutive duplicates. -/
def dedupConsec : List String → List String
  | [] => []
  | [x] => [x]
  | x :: y :: rest =>
    if x = y then dedupConsec (y :: rest)
    else x :: dedupConsec (y :: rest)

/-- `repos_by_instance` (gitlab.rs:58-70,95-98): walk the items, route each
repository URL, group by instance base URL, then sort and dedup each
instance's URL list. -/
def groupReposByInstance (items : List Item) : List (String × List String) :=
  let grouped :=
    items.foldl
      (fun acc item =>
        match item.repositories with
        | none => acc
        | some repos =>
          repos.foldl
            (fun acc2 url =>
              match parse_gitlab_url url with
              | some (base, _) => insertGrouped base url acc2
              | none => acc2)
            acc)
      []
  grouped.map (fun e => (e.1, dedupConsec (sortStr e.2)))

/-- The fresh-cache lookup for one URL (gitlab.rs:132-140):
the cached snapshot, if present for that exact URL and not expired
(`generated_at + 7 days > now`). -/
def freshCached (cached : Option GitData) (now : Int) (url : String) :
    Option RepositoryGitData :=
  Option.bind cached (fun c =>
    Option.bind (List.lookup url c) (fun repo =>
      if repo.generated_at + GITLAB_CACHE_TTL * day > now then some repo else none))

/-- The dispatch decision for one URL (the if/else chain of
gitlab.rs:131-155). -/
inductive UrlAction where
  | reuseCached (repo : RepositoryGitData)
  | dispatchFetch
  | errNoPool
  | errInvalid
deriving DecidableEq, Repr

/-- Decide what happens for one URL: reuse a fresh cached snapshot; else,
if the URL parses and its instance has a pool, dispatch a fetch; else an
error entry (`no token configured` / `invalid gitlab url`). -/
def urlAction (cached : Option GitData) (pools : List String) (now : Int)
    (url : String) : UrlAction :=
  match freshCached cached now url with
  | some repo => UrlAction.reuseCached repo
  | none =>
    match parse_gitlab_url url with
    | some (base, _) =>
      if pools.contains base then UrlAction.dispatchFetch else UrlAction.errNoPool
    | none => UrlAction.errInvalid

/-- The per-URL task body of the fetch stream (gitlab.rs:128-156). -/
def perUrlTask (o : Oracle) (pools : List String) (url : String) :
    Except Unit RepositoryGitData :=
  match urlAction o.cacheRead pools o.now url with
  | UrlAction.reuseCached repo => Except.ok repo
  | UrlAction.dispatchFetch =>
    collect_repository_data (o.get_project url) (o.subf url) url o.now
  | UrlAction.errNoPool => Except.error ()
  | UrlAction.errInvalid => Except.error ()

/-- The final merge (gitlab.rs:160-168): keep only the `Ok` outcomes. -/
def mergeOk : List (String × Except Unit RepositoryGitData) → GitData
  | [] => []
  | (url, Except.ok d) :: rest => (url, d) :: mergeOk rest
  | (_, Except.error _) :: rest => mergeOk rest

/-- Concatenate the per-instance URL vectors (gitlab.rs:117-120). -/
def listFlat : List (List String) → List String
  | [] => []
  | l :: ls => l ++ listFlat ls

/-- The pools built for a run: the pool-construction phase applied to the
grouped repositories and the parsed credentials. -/
def builtPools (o : Oracle) (items : List Item) : Except Unit (List String) :=
  buildPools o.clientBuild (groupReposByInstance items) (parse_gitlab_tokens_env o.env)

/-- `collect_gitlab_data` (gitlab.rs:54-177). Returns the result map and
the number of cache writes performed. The two early returns (no GitLab
repositories, gitlab.rs:75-78; no pools, gitlab.rs:111-114) return an
empty map WITHOUT writing the cache; the full path writes once
(gitlab.rs:171) and a pool-construction failure propagates
(gitlab.rs:104). The cache write itself is modelled as always succeeding;
the `buffer_unordered` concurrency only permutes completion order, which
the keyed collection discards. -/
def collectGitlabData (o : Oracle) (items : List Item) :
    Except Unit (GitData × Nat) :=
  if groupReposByInstance items = [] then Except.ok ([], 0)
  else
    match builtPools o items with
    | Except.error e => Except.error e
    | Except.ok instance_pools =>
      if instance_pools = [] then Except.ok ([], 0)
      else
        Except.ok
          (mergeOk ((listFlat ((groupReposByInstance items).map Prod.snd)).map
            (fun url => (url, perUrlTask o instance_pools url))), 1)

/-! ## Helper lemmas -/

/-- A list is a Boolean prefix of itself followed by anything. -/
theorem isPrefixOf_self_append (l r : List Char) : l.isPrefixOf (l ++ r) = true := by
  induction l with
  | nil => cases r <;> rfl
  | cons c cs ih => simp [List.isPrefixOf, ih]

/-- Splitting `host ++ '/' :: path` at the first slash recovers the parts
when `host` contains no slash. -/
theorem splitFirstSlash_append (host path : List Char) (h : '/' ∉ host) :
    splitFirstSlash (host ++ '/' :: path) = some (host, path) := by
  induction host with
  | nil => simp [splitFirstSlash]
  | cons c cs ih =>
    have hc : ¬ c = '/' := fun e => h (e ▸ List.mem_cons_self c cs)
    have ih2 := ih (fun m => h (List.mem_cons_of_mem _ m))
    simp [splitFirstSlash, hc, ih2]

/-- The path group of a non-empty, newline-free path is its slash-stripped
form. -/
theorem pathGroup_eq (path : List Char) (hne : path ≠ []) (hnl : '\n' ∉ path) :
    pathGroup path = some (stripSlash path) := by
  have hs : '\n' ∉ stripSlash path := by
    unfold stripSlash
    split
    · exact fun m => hnl (List.dropLast_subset path m)
    · exact hnl
  unfold pathGroup
  rw [if_neg hne]
  simp only [stripSlash] at hs ⊢
  rw [if_neg hs]

/-! ## Claim C6 -/

/-- C6: the credential parser maps `"tok1,tok2"` to exactly one entry for
the default instance `https://gitlab.com` with tokens `["tok1","tok2"]`;
maps `"https://gl.example;tokA;https://gl2.example;tokB,tokC"` to exactly
the two entries `(https://gl.example, [tokA])` and
`(https://gl2.example, [tokB, tokC])`; maps the empty string to the empty
list; and maps `"https://gl.example"` (a URL segment with no following
segment) to zero entries. -/
theorem c6_credential_resolver_examples :
    parse_gitlab_tokens_env (some "tok1,tok2") =
      [{ base_url := "https://gitlab.com", tokens := ["tok1", "tok2"] }]
    ∧ parse_gitlab_tokens_env
        (some "https://gl.example;tokA;https://gl2.example;tokB,tokC") =
      [{ base_url := "https://gl.example", tokens := ["tokA"] },
       { base_url := "https://gl2.example", tokens := ["tokB", "tokC"] }]
    ∧ parse_gitlab_tokens_env (some "") = []
    ∧ parse_gitlab_tokens_env (some "https://gl.example") = [] :=
  ⟨by decide, by decide, by decide, by decide⟩

/-! ## Claim C7 -/

/-- C7 counterexample: `"http://gl.example/proj"` has the claimed shape
`scheme://host/path` (scheme `http`, host `gl.example`, path `proj`) and
does not contain the foreign-platform marker `github.com`, yet the URL
router returns `none`, not `some ("http://gl.example", "proj")`: the regex
only accepts the `https` scheme. -/
theorem c7_counterexample :
    "http://gl.example/proj" = "http" ++ "://" ++ "gl.example" ++ "/" ++ "proj"
    ∧ strContains "github.com" "http://gl.example/proj" = false
    ∧ parse_gitlab_url "http://gl.example/proj" = none :=
  ⟨rfl, by decide, by decide⟩

/-- C7 (amended: scheme restricted to `https`): for every URL of the shape
`https://host/path` — host non-empty and slash-free, path non-empty and
newline-free — that does not contain the foreign-platform marker
`github.com`, the router returns `some (https://host, path)` with one
trailing slash and all trailing `.git` repetitions stripped from the path;
and every URL containing `github.com` yields `none` regardless of shape. -/
theorem c7_url_router :
    (∀ host path : List Char, host ≠ [] → '/' ∉ host → path ≠ [] → '\n' ∉ path →
      strContains "github.com" (String.mk (httpsChars ++ (host ++ '/' :: path))) = false →
      parse_gitlab_url (String.mk (httpsChars ++ (host ++ '/' :: path))) =
        some (String.mk (httpsChars ++ host), String.mk (trimEndGit (stripSlash path))))
    ∧ (∀ url : String, strContains "github.com" url = true →
        parse_gitlab_url url = none) := by
  constructor
  · intro host path hhost hslash hpath hnl hmark
    unfold parse_gitlab_url
    rw [hmark]
    have hdata : (String.mk (httpsChars ++ (host ++ '/' :: path))).data =
        httpsChars ++ (host ++ '/' :: path) := rfl
    rw [hdata]
    unfold regexMatch
    rw [isPrefixOf_self_append]
    have hdrop : (httpsChars ++ (host ++ '/' :: path)).drop 8 = host ++ '/' :: path := by
      have hlen : httpsChars.length = 8 := rfl
      rw [← hlen, List.drop_left]
    rw [hdrop, splitFirstSlash_append host path hslash]
    simp [hhost, pathGroup_eq path hpath hnl]
  · intro url h
    unfold parse_gitlab_url
    rw [h]
    rfl

/-- C7 witness: the amended router contract applied to the concrete URL
`https://gl.example/grp/proj.git`. -/
theorem c7_witness :
    parse_gitlab_url (String.mk (httpsChars ++ ("gl.example".data ++ '/' :: "grp/proj.git".data))) =
      some (String.mk (httpsChars ++ "gl.example".data),
            String.mk (trimEndGit (stripSlash "grp/proj.git".data))) :=
  c7_url_router.1 "gl.example".data "grp/proj.git".data
    (by decide) (by decide) (by decide) (by decide) (by decide)

/-! ## Claim C8 -/

/-- An empty string never survives the token splitting: the parser filters
empty pieces after trimming. -/
theorem splitTokens_no_empty (s : String) : "" ∉ splitTokens s := by
  intro h
  unfold splitTokens at h
  have h2 := List.mem_filter.mp h
  simp at h2

/-- Every config entry the segment loop produces has a non-empty token
list containing no empty token. -/
theorem parseParts_mem (parts : List String) :
    ∀ cfg ∈ parseParts parts, cfg.tokens ≠ [] ∧ "" ∉ cfg.tokens := by
  induction parts using parseParts.induct with
  | case1 => intro cfg h; simp [parseParts] at h
  | case2 p rest h1 ih =>
    intro cfg h
    rw [parseParts.eq_def] at h
    simp [h1] at h
    exact ih cfg h
  | case3 p h1 h2 =>
    intro cfg h
    rw [parseParts.eq_def] at h
    simp [h1, h2] at h
  | case4 p h1 h2 tok rest2 h3 ih =>
    intro cfg h
    rw [parseParts.eq_def] at h
    simp [h1, h2, h3] at h
    exact ih cfg h
  | case5 p h1 h2 tok rest2 h3 ih =>
    intro cfg h
    rw [parseParts.eq_def] at h
    simp [h1, h2, h3] at h
    rcases h with he | hm
    · subst he
      exact ⟨h3, splitTokens_no_empty _⟩
    · exact ih cfg hm
  | case6 p rest h1 h2 h3 ih =>
    intro cfg h
    rw [parseParts.eq_def] at h
    simp [h1, h2, h3] at h
    exact ih cfg h
  | case7 p rest h1 h2 h3 ih =>
    intro cfg h
    rw [parseParts.eq_def] at h
    simp [h1, h2, h3] at h
    rcases h with he | hm
    · subst he
      exact ⟨h3, splitTokens_no_empty _⟩
    · exact ih cfg hm

/-- C8 counterexample: the configuration string `"tok1,tok1"` produces an
entry whose token list `["tok1","tok1"]` contains the same token twice —
the parser never deduplicates tokens. -/
theorem c8_counterexample :
    parse_gitlab_tokens_env (some "tok1,tok1") =
      [{ base_url := "https://gitlab.com", tokens := ["tok1", "tok1"] }]
    ∧ ¬ List.Nodup ["tok1", "tok1"] :=
  ⟨by decide, by decide⟩

/-- C8 (amended): every entry produced by the credential parser carries an
ordered token list that is non-empty and contains no empty token, but the
list is NOT deduplicated — duplicate tokens are retained as given
(witnessed by `"tok1,tok1"`). -/
theorem c8_token_lists :
    (∀ (env : Option String) (cfg : GitlabInstanceConfig),
        cfg ∈ parse_gitlab_tokens_env env → cfg.tokens ≠ [] ∧ "" ∉ cfg.tokens)
    ∧ parse_gitlab_tokens_env (some "tok1,tok1") =
        [{ base_url := "https://gitlab.com", tokens := ["tok1", "tok1"] }] := by
  constructor
  · intro env cfg h
    match env with
    | none => simp [parse_gitlab_tokens_env] at h
    | some t =>
      simp only [parse_gitlab_tokens_env] at h
      by_cases ht : t = ""
      · simp [ht] at h
      · rw [if_neg ht] at h
        exact parseParts_mem _ cfg h
  · decide

/-- C8 witness: the amended invariant applies to the entry parsed from
`"tok1,tok2"`. -/
theorem c8_witness :
    ({ base_url := "https://gitlab.com", tokens := ["tok1", "tok2"] } :
        GitlabInstanceConfig).tokens ≠ []
    ∧ "" ∉ ({ base_url := "https://gitlab.com", tokens := ["tok1", "tok2"] } :
        GitlabInstanceConfig).tokens :=
  c8_token_lists.1 (some "tok1,tok2")
    { base_url := "https://gitlab.com", tokens := ["tok1", "tok2"] } (by decide)

/-! ## Claim C10 -/

/-- C10: whenever a URL-prefixed segment is immediately followed by another
segment — even one that is itself URL-prefixed — that second segment is
consumed as the comma-separated token list of the first instance; and the
concrete string `"https://a.example;https://b.example;tokX"` yields the
entry `(https://a.example, ["https://b.example"])` followed by a
default-instance entry `["tokX"]` (the non-URL segment `tokX` does not
immediately follow a URL segment, so it becomes default-instance tokens
even after earlier URL/token pairs). -/
theorem c10_url_segment_pairing :
    (∀ (u tok : String) (rest : List String),
        trimStr u ≠ "" → isUrlSeg (trimStr u) = true →
        parseParts (u :: tok :: rest) =
          (if splitTokens (trimStr tok) = [] then parseParts rest
           else { base_url := dropTrailSlashes (trimStr u),
                  tokens := splitTokens (trimStr tok) } :: parseParts rest))
    ∧ parse_gitlab_tokens_env (some "https://a.example;https://b.example;tokX") =
        [{ base_url := "https://a.example", tokens := ["https://b.example"] },
         { base_url := "https://gitlab.com", tokens := ["tokX"] }] := by
  constructor
  · intro u tok rest h1 h2
    rw [parseParts.eq_def]
    simp [h1, h2]
  · decide

/-- C10 witness: the pairing rule applied to the concrete segments of
`"https://a.example;https://b.example;tokX"`. -/
theorem c10_witness :
    parseParts ["https://a.example", "https://b.example", "tokX"] =
      (if splitTokens (trimStr "https://b.example") = [] then parseParts ["tokX"]
       else { base_url := dropTrailSlashes (trimStr "https://a.example"),
              tokens := splitTokens (trimStr "https://b.example") } :: parseParts ["tokX"]) :=
  c10_url_segment_pairing.1 "https://a.example" "https://b.example" ["tokX"]
    (by decide) (by decide)

/-! ## Fetcher-level helper lemmas and demo values -/

/-- A snapshot with the given generation time and neutral field values,
used to build concrete cache contents. -/
def mkSnap (g : Int) : RepositoryGitData :=
  { generated_at := g
    contributors := { count := 0, url := "" }
    description := ""
    first_commit := none
    good_first_issues := none
    languages := none
    latest_commit := { url := "", ts := none }
    latest_release := none
    license := none
    stars := 0
    topics := []
    url := "" }

/-- A concrete project-metadata value whose default branch is `develop`
(deliberately not `main`). -/
def demoProject : GitLabProject :=
  { description := some "demo"
    default_branch := "develop"
    path_with_namespace := "a/b"
    star_count := 1
    topics := ["t"]
    web_url := "https://gl.example/a/b"
    license := none }

/-- Sub-fetch outcomes in which every call succeeds. -/
def okFetches : SubFetches :=
  { contributors_count := Except.ok 3
    first_commit := fun _ => Except.ok (some { url := "cu", ts := some 1 })
    languages := Except.ok none
    good_first_issues := Except.ok none
    latest_commit := fun _ => Except.ok { url := "lu", ts := some 2 }
    latest_release := Except.ok none }

/-- Replace the commit-related sub-fetches by constant functions returning
their value at `ref`: if the fetcher only ever consults them at `ref`, this
replacement cannot change its result. -/
def restrictToRef (f : SubFetches) (ref : String) : SubFetches :=
  { f with
    first_commit := fun _ => f.first_commit ref
    latest_commit := fun _ => f.latest_commit ref }

/-- A failing required sub-fetch (contributors count) makes the whole
repository fetch fail. -/
theorem cpd_err_contrib (f : SubFetches) (b p : String) (proj : GitLabProject)
    (now : Int) (h : f.contributors_count = Except.error ()) :
    collect_project_data f b p proj now = Except.error () := by
  unfold collect_project_data
  rw [h]

/-- A failing first-commit sub-fetch makes the whole repository fetch
fail. -/
theorem cpd_err_first (f : SubFetches) (b p : String) (proj : GitLabProject)
    (now : Int) (h : f.first_commit proj.default_branch = Except.error ()) :
    collect_project_data f b p proj now = Except.error () := by
  unfold collect_project_data
  cases h1 : f.contributors_count with
  | error e => rfl
  | ok cc => rw [h]

/-- A failing latest-commit sub-fetch makes the whole repository fetch
fail. -/
theorem cpd_err_latest (f : SubFetches) (b p : String) (proj : GitLabProject)
    (now : Int) (h : f.latest_commit proj.default_branch = Except.error ()) :
    collect_project_data f b p proj now = Except.error () := by
  unfold collect_project_data
  cases h1 : f.contributors_count with
  | error e => rfl
  | ok cc =>
    cases h2 : f.first_commit proj.default_branch with
    | error e => rfl
    | ok fc =>
      cases h3 : f.languages with
      | error e => rfl
      | ok langs =>
        cases h4 : f.good_first_issues with
        | error e => rfl
        | ok gfi => rw [h]

/-- A failing project-metadata fetch makes the whole repository fetch
fail. -/
theorem crd_err_project (gp : Except Unit GitLabProject) (f : SubFetches)
    (url : String) (now : Int) (h : gp = Except.error ()) :
    collect_repository_data gp f url now = Except.error () := by
  unfold collect_repository_data
  cases hp : parse_gitlab_url url with
  | none => rfl
  | some bp =>
    obtain ⟨b2, p2⟩ := bp
    rw [h]

/-- Inversion of a successful repository fetch: the snapshot's
good-first-issues field is the sub-fetch's `Ok` payload and its
contributors URL is built with the hard-coded `main` branch. -/
theorem cpd_ok_inv (f : SubFetches) (b p : String) (proj : GitLabProject)
    (now : Int) (r : RepositoryGitData)
    (hok : collect_project_data f b p proj now = Except.ok r) :
    f.good_first_issues = Except.ok r.good_first_issues ∧
    r.contributors.url = b ++ "/" ++ p ++ "/-/graphs/main?ref_type=heads" := by
  unfold collect_project_data at hok
  repeat' split at hok
  all_goals first
    | exact Except.noConfusion hok
    | (injection hok with hok2; subst hok2; simp_all)

/-! ## Claim C2 -/

/-- C2 counterexample: a successful-status response whose body does NOT
parse makes `get_languages` return an error (the `?` on
`serde_json::from_str`, gitlab.rs:495), not `Ok(None)` — so an unparseable
languages body propagates and fails the repository fetch, contrary to the
claim that both degradable sub-fetches always degrade to `Ok(None)`. -/
theorem c2_counterexample :
    get_languages (HttpOutcome.response true none) = Except.error ()
    ∧ get_languages (HttpOutcome.response true none) ≠ Except.ok none :=
  ⟨rfl, fun h => Except.noConfusion h⟩

/-- C2 (amended): the good-first-issues sub-fetch degrades to `Ok(None)`
on a non-success status AND on an unparseable body (and a repository whose
good-first-issues outcome is `Ok(None)` still produces a full snapshot
with the field absent); the languages sub-fetch degrades to `Ok(None)` on
a non-success status and on an empty parsed map, but an UNPARSEABLE
languages body propagates as an error. -/
theorem c2_degradable_subfetches :
    (∀ parsed : Option Nat,
        get_good_first_issues_count (HttpOutcome.response false parsed) = Except.ok none)
    ∧ get_good_first_issues_count (HttpOutcome.response true none) = Except.ok none
    ∧ (∀ n : Nat,
        get_good_first_issues_count (HttpOutcome.response true (some n)) = Except.ok (some n))
    ∧ (∀ parsed : Option Langs,
        get_languages (HttpOutcome.response false parsed) = Except.ok none)
    ∧ get_languages (HttpOutcome.response true none) = Except.error ()
    ∧ (∀ l : Langs, get_languages (HttpOutcome.response true (some l)) =
        if l = [] then Except.ok none else Except.ok (some l))
    ∧ (∀ (f : SubFetches) (b p : String) (proj : GitLabProject) (now : Int)
          (r : RepositoryGitData),
        f.good_first_issues = Except.ok none →
        collect_project_data f b p proj now = Except.ok r →
        r.good_first_issues = none) := by
  refine ⟨fun _ => rfl, rfl, fun _ => rfl, fun _ => rfl, rfl, fun l => rfl, ?_⟩
  intro f b p proj now r hg hok
  have h2 := (cpd_ok_inv f b p proj now r hok).1
  rw [hg] at h2
  exact (Except.ok.inj h2).symm

/-- The snapshot produced by a fully successful fetch of `a/b` with the
demo project metadata. -/
def c2snap : RepositoryGitData :=
  match collect_project_data okFetches "https://gl.example" "a/b" demoProject 0 with
  | Except.ok r => r
  | Except.error _ => mkSnap 0

/-- C2 witness: a repository whose good-first-issues sub-fetch degraded to
`Ok(None)` still produces a full snapshot with the field absent. -/
theorem c2_witness : c2snap.good_first_issues = none :=
  c2_degradable_subfetches.2.2.2.2.2.2 okFetches "https://gl.example" "a/b"
    demoProject 0 c2snap rfl rfl

/-! ## Claim C9 -/

/-- C9: every snapshot produced by a successful fetch carries a
contributors URL equal to the base URL, a slash, the project path, and the
suffix `graphs/main?ref_type=heads` (behind the dash segment), the branch
hard-coded to `main`, whatever the project's actual default
branch; and the fetcher consults the commit sub-fetches only at the
project's `default_branch` (replacing them by their value at that branch
changes nothing). -/
theorem c9_contributors_url_main :
    (∀ (f : SubFetches) (b p : String) (proj : GitLabProject) (now : Int)
        (r : RepositoryGitData),
      collect_project_data f b p proj now = Except.ok r →
      r.contributors.url = b ++ "/" ++ p ++ "/-/graphs/main?ref_type=heads")
    ∧ (∀ (f : SubFetches) (b p : String) (proj : GitLabProject) (now : Int),
      collect_project_data f b p proj now =
        collect_project_data (restrictToRef f proj.default_branch) b p proj now) := by
  constructor
  · intro f b p proj now r hok
    exact (cpd_ok_inv f b p proj now r hok).2
  · intro f b p proj now
    rfl

/-- The snapshot produced for project path `grp/proj` of the demo project,
whose default branch is `develop`. -/
def c9snap : RepositoryGitData :=
  match collect_project_data okFetches "https://gl.example" "grp/proj" demoProject 0 with
  | Except.ok r => r
  | Except.error _ => mkSnap 0

/-- C9 witness: with default branch `develop`, the contributors URL still
points at `main`. -/
theorem c9_witness :
    c9snap.contributors.url = "https://gl.example/grp/proj/-/graphs/main?ref_type=heads" :=
  c9_contributors_url_main.1 okFetches "https://gl.example" "grp/proj"
    demoProject 0 c9snap rfl

/-! ## Claim C4 -/

/-- C4: for a URL with a cached snapshot (and a parseable URL whose
instance has a pool, so that a fetch is possible at all), the snapshot is
reused — no fetch dispatched — exactly when its age `now - generated_at`
is strictly below 7 days; otherwise a fetch is dispatched. The code's test
is `generated_at + 7 days > now` (gitlab.rs:134), which is the same strict
bound. -/
theorem c4_cache_ttl (cached : GitData) (pools : List String) (now : Int)
    (url base path : String) (repo : RepositoryGitData)
    (hlook : List.lookup url cached = some repo)
    (hparse : parse_gitlab_url url = some (base, path))
    (hpool : pools.contains base = true) :
    (urlAction (some cached) pools now url = UrlAction.reuseCached repo ↔
      now - repo.generated_at < GITLAB_CACHE_TTL * day)
    ∧ (¬ now - repo.generated_at < GITLAB_CACHE_TTL * day →
        urlAction (some cached) pools now url = UrlAction.dispatchFetch) := by
  have hT : GITLAB_CACHE_TTL * day = 604800 := by decide
  have hfc : freshCached (some cached) now url =
      (if repo.generated_at + GITLAB_CACHE_TTL * day > now then some repo else none) := by
    simp [freshCached, hlook]
  rw [hT] at hfc ⊢
  by_cases hf : repo.generated_at + 604800 > now
  · have ha : urlAction (some cached) pools now url = UrlAction.reuseCached repo := by
      unfold urlAction
      rw [hfc, if_pos hf]
    constructor
    · rw [ha]
      exact ⟨fun _ => by omega, fun _ => rfl⟩
    · intro hcon
      exact absurd (by omega : now - repo.generated_at < 604800) hcon
  · have hm : base ∈ pools := by simpa using hpool
    have ha : urlAction (some cached) pools now url = UrlAction.dispatchFetch := by
      unfold urlAction
      rw [hfc, if_neg hf, hparse]
      simp [hm]
    constructor
    · rw [ha]
      exact ⟨fun h => UrlAction.noConfusion h, fun h => by omega⟩
    · intro _
      exact ha

/-- C4 witness: with `now = 0`, a snapshot generated 6 days ago
(`generated_at = -518400`) is reused, and one generated 8 days ago
(`generated_at = -691200`) is not — a fetch is dispatched instead. -/
theorem c4_witness :
    urlAction (some [("https://gl.example/a/b", mkSnap (-518400))])
        ["https://gl.example"] 0 "https://gl.example/a/b" =
      UrlAction.reuseCached (mkSnap (-518400))
    ∧ urlAction (some [("https://gl.example/a/b", mkSnap (-691200))])
        ["https://gl.example"] 0 "https://gl.example/a/b" =
      UrlAction.dispatchFetch := by
  constructor
  · exact (c4_cache_ttl [("https://gl.example/a/b", mkSnap (-518400))]
      ["https://gl.example"] 0 "https://gl.example/a/b" "https://gl.example" "a/b"
      (mkSnap (-518400)) (by decide) (by decide) (by decide)).1.mpr (by decide)
  · exact (c4_cache_ttl [("https://gl.example/a/b", mkSnap (-691200))]
      ["https://gl.example"] 0 "https://gl.example/a/b" "https://gl.example" "a/b"
      (mkSnap (-691200)) (by decide) (by decide) (by decide)).2 (by decide)

/-! ## Orchestrator-level helper lemmas -/

/-- An entry of `urls.map (fun u => (u, f u))` whose key is `u` carries
`f u`. -/
theorem mem_map_pair {l : List String} {f : String → Except Unit RepositoryGitData}
    {u : String} {r : Except Unit RepositoryGitData}
    (h : (u, r) ∈ l.map (fun x => (x, f x))) : r = f u := by
  obtain ⟨x, hx, he⟩ := List.mem_map.mp h
  injection he with e1 e2
  subst e1
  exact e2.symm

/-- A key that never appears with an `Ok` outcome is absent from the merged
map. -/
theorem lookup_mergeOk_none (L : List (String × Except Unit RepositoryGitData))
    (url : String) (h : ∀ v, (url, Except.ok v) ∉ L) :
    List.lookup url (mergeOk L) = none := by
  induction L with
  | nil => rfl
  | cons hd tl ih =>
    obtain ⟨u, r⟩ := hd
    have htl : ∀ v, (url, Except.ok v) ∉ tl :=
      fun v hv => h v (List.mem_cons_of_mem _ hv)
    cases r with
    | ok d =>
      have hne : url ≠ u := by
        intro e
        subst e
        exact h d (List.mem_cons_self _ _)
      have hbeq : (url == u) = false := beq_eq_false_iff_ne.mpr hne
      rw [mergeOk, List.lookup, hbeq]
      exact ih htl
    | error e =>
      rw [mergeOk]
      exact ih htl

/-- A per-URL task can only succeed through a fresh cached snapshot or a
successful fetch. -/
theorem perUrlTask_ok_inv (o : Oracle) (pools : List String) (url : String)
    (v : RepositoryGitData) (h : perUrlTask o pools url = Except.ok v) :
    freshCached o.cacheRead o.now url = some v ∨
    collect_repository_data (o.get_project url) (o.subf url) url o.now = Except.ok v := by
  cases hfc : freshCached o.cacheRead o.now url with
  | some repo =>
    left
    have he : perUrlTask o pools url = Except.ok repo := by
      unfold perUrlTask urlAction
      rw [hfc]
    rw [he] at h
    injection h with h2
    subst h2
    rfl
  | none =>
    right
    cases hp : parse_gitlab_url url with
    | none =>
      have he : perUrlTask o pools url = Except.error () := by
        unfold perUrlTask urlAction
        rw [hfc, hp]
      rw [he] at h
      exact Except.noConfusion h
    | some bp =>
      obtain ⟨b2, p2⟩ := bp
      by_cases hin : pools.contains b2 = true
      · have hm : b2 ∈ pools := by simpa using hin
        have he : perUrlTask o pools url =
            collect_repository_data (o.get_project url) (o.subf url) url o.now := by
          unfold perUrlTask urlAction
          rw [hfc, hp]
          simp [hm]
        rw [he] at h
        exact h
      · have hm : b2 ∉ pools := by
          intro hmem
          exact hin (by simpa using hmem)
        have he : perUrlTask o pools url = Except.error () := by
          unfold perUrlTask urlAction
          rw [hfc, hp]
          simp [hm]
        rw [he] at h
        exact Except.noConfusion h

/-- If any grouped instance has a matching config whose pool construction
fails, the whole pool-construction loop fails (the `?` at gitlab.rs:104). -/
theorem buildPools_error (cb : String → String → Bool)
    (grouped : List (String × List String)) (cfgs : List GitlabInstanceConfig) :
    ∀ (base : String) (urls : List String) (cfg : GitlabInstanceConfig),
    (base, urls) ∈ grouped →
    find_config_for_instance base cfgs = some cfg →
    create_gitlab_pool cb base cfg.tokens = Except.error () →
    buildPools cb grouped cfgs = Except.error () := by
  induction grouped with
  | nil =>
    intro base urls cfg hmem
    exact absurd hmem (List.not_mem_nil _)
  | cons hd tl ih =>
    intro base urls cfg hmem hcfg hpool
    obtain ⟨hb, hurls⟩ := hd
    rw [buildPools]
    rcases List.mem_cons.mp hmem with he | hm
    · injection he with e1 e2
      subst e1
      rw [hcfg]
      simp [hpool]
    · cases hfc : find_config_for_instance hb cfgs with
      | none => exact ih base urls cfg hm hcfg hpool
      | some cfg2 =>
        cases hcp : create_gitlab_pool cb hb cfg2.tokens with
        | error e => simp only [hcp]
        | ok n => simp only [hcp, ih base urls cfg hm hcfg hpool]

/-- A URL whose fetch fails and whose cache entry is not fresh is absent
from the result map of a successful run. -/
theorem collect_lookup_none (o : Oracle) (items : List Item) (m : GitData)
    (w : Nat) (url : String)
    (hrun : collectGitlabData o items = Except.ok (m, w))
    (hcache : freshCached o.cacheRead o.now url = none)
    (hfetch : collect_repository_data (o.get_project url) (o.subf url) url o.now =
      Except.error ()) :
    List.lookup url m = none := by
  unfold collectGitlabData at hrun
  split at hrun
  · injection hrun with h2
    injection h2 with hm hw
    subst hm
    rfl
  · split at hrun
    · exact Except.noConfusion hrun
    · split at hrun
      · injection hrun with h2
        injection h2 with hm hw
        subst hm
        rfl
      · injection hrun with h2
        injection h2 with hm hw
        subst hm
        refine lookup_mergeOk_none _ _ ?_
        intro v hv
        have hpr := (mem_map_pair hv).symm
        rcases perUrlTask_ok_inv o _ url v hpr with hl | hr2
        · rw [hcache] at hl
          exact Option.noConfusion hl
        · rw [hfetch] at hr2
          exact Except.noConfusion hr2

/-! ## Claim C5 -/

/-- C5: a repository fetch is all-or-nothing. A failing required sub-fetch
(project metadata, contributors count, first commit, latest commit) makes
the whole repository fetch fail — in particular a latest-commit failure
after project metadata succeeded — and in a successful run a URL whose
fetch failed (and whose cache entry is not fresh) contributes no entry at
all to the result map. -/
theorem c5_all_or_nothing :
    (∀ (f : SubFetches) (b p : String) (proj : GitLabProject) (now : Int),
        f.contributors_count = Except.error () →
        collect_project_data f b p proj now = Except.error ())
    ∧ (∀ (f : SubFetches) (b p : String) (proj : GitLabProject) (now : Int),
        f.first_commit proj.default_branch = Except.error () →
        collect_project_data f b p proj now = Except.error ())
    ∧ (∀ (f : SubFetches) (b p : String) (proj : GitLabProject) (now : Int),
        f.latest_commit proj.default_branch = Except.error () →
        collect_project_data f b p proj now = Except.error ())
    ∧ (∀ (gp : Except Unit GitLabProject) (f : SubFetches) (url : String) (now : Int),
        gp = Except.error () →
        collect_repository_data gp f url now = Except.error ())
    ∧ (∀ (o : Oracle) (items : List Item) (m : GitData) (w : Nat) (url : String),
        collectGitlabData o items = Except.ok (m, w) →
        freshCached o.cacheRead o.now url = none →
        collect_repository_data (o.get_project url) (o.subf url) url o.now =
          Except.error () →
        List.lookup url m = none) :=
  ⟨cpd_err_contrib, cpd_err_first, cpd_err_latest, crd_err_project, collect_lookup_none⟩

/-- A run whose single repository fetch fails at the latest-commit
sub-fetch after everything else succeeded. -/
def c5oracle : Oracle :=
  { env := some "https://gl.example;tokA"
    cacheRead := none
    clientBuild := fun _ _ => true
    get_project := fun _ => Except.ok demoProject
    subf := fun _ => { okFetches with latest_commit := fun _ => Except.error () }
    now := 0 }

/-- One landscape item holding the single repository of the failing-fetch
run. -/
def c5items : List Item := [{ repositories := some ["https://gl.example/a/b"] }]

/-- C5 witness: in the concrete failing-fetch run, the failed URL is
absent from the (here empty) result map. -/
theorem c5_witness : List.lookup "https://gl.example/a/b" ([] : GitData) = none :=
  c5_all_or_nothing.2.2.2.2 c5oracle c5items [] 1 "https://gl.example/a/b" rfl rfl rfl

/-! ## Claim C1 -/

/-- A two-instance run in which client construction fails for every token
of `https://a.example` and succeeds for `https://b.example`. -/
def c1oracle : Oracle :=
  { env := some "https://a.example;tokA;https://b.example;tokB"
    cacheRead := none
    clientBuild := fun base _ => base != "https://a.example"
    get_project := fun _ => Except.ok demoProject
    subf := fun _ => okFetches
    now := 0 }

/-- One landscape item with one repository on each of the two instances. -/
def c1items : List Item :=
  [{ repositories := some ["https://a.example/x", "https://b.example/y"] }]

/-- C1 counterexample: B's pool construction succeeds on its own, yet the
failure of A's pool construction makes the whole `collect_gitlab_data` run
return an error (the `?` at gitlab.rs:104) — B's URL is not fetched, no
result map is returned, and the run does NOT complete without error. -/
theorem c1_counterexample :
    create_gitlab_pool c1oracle.clientBuild "https://b.example" ["tokB"] = Except.ok 1
    ∧ collectGitlabData c1oracle c1items = Except.error () :=
  ⟨rfl, rfl⟩

/-- C1 (amended): a pool-construction failure for any instance that has
repositories and a matching credential config aborts the ENTIRE
`collect_gitlab_data` run with an error — no result map is returned and no
other instance's URLs appear anywhere; the failure is not isolated to that
instance. -/
theorem c1_pool_failure_aborts_run (o : Oracle) (items : List Item)
    (base : String) (urls : List String) (cfg : GitlabInstanceConfig)
    (hmem : (base, urls) ∈ groupReposByInstance items)
    (hcfg : find_config_for_instance base (parse_gitlab_tokens_env o.env) = some cfg)
    (hpool : create_gitlab_pool o.clientBuild base cfg.tokens = Except.error ()) :
    collectGitlabData o items = Except.error () := by
  have hb : buildPools o.clientBuild (groupReposByInstance items)
      (parse_gitlab_tokens_env o.env) = Except.error () :=
    buildPools_error o.clientBuild (groupReposByInstance items)
      (parse_gitlab_tokens_env o.env) base urls cfg hmem hcfg hpool
  have hne : ¬ groupReposByInstance items = [] := by
    intro e
    rw [e] at hmem
    exact List.not_mem_nil _ hmem
  unfold collectGitlabData
  rw [if_neg hne]
  unfold builtPools
  rw [hb]

/-- C1 witness: the amended abort behaviour at the concrete two-instance
scenario. -/
theorem c1_witness : collectGitlabData c1oracle c1items = Except.error () :=
  c1_pool_failure_aborts_run c1oracle c1items "https://a.example"
    ["https://a.example/x"] { base_url := "https://a.example", tokens := ["tokA"] }
    (by decide) rfl rfl

/-! ## Claim C3 -/

/-- An oracle for a run that finds no GitLab repositories. -/
def c3oracle : Oracle :=
  { env := none
    cacheRead := none
    clientBuild := fun _ _ => true
    get_project := fun _ => Except.ok demoProject
    subf := fun _ => okFetches
    now := 0 }

/-- One item whose only repository is on GitHub, so the router rejects it
and the run takes the `no gitlab repositories found` early return. -/
def c3items : List Item := [{ repositories := some ["https://github.com/a/b"] }]

/-- C3 counterexample: a run that finds no GitLab repositories returns
successfully with an empty map and performs ZERO cache writes — the early
return at gitlab.rs:75-78 skips the write, so the write is not
unconditional. -/
theorem c3_counterexample :
    collectGitlabData c3oracle c3items = Except.ok ([], 0) ∧ (0 : Nat) ≠ 1 :=
  ⟨rfl, by decide⟩

/-- C3 (amended): a successful run writes the cache exactly once ONLY when
it reaches the dispatch phase (some GitLab repository was found and some
instance pool was built); the two early returns — no GitLab repositories
(gitlab.rs:75-78) and no constructible pools (gitlab.rs:111-114) — return
an empty map without writing the cache at all. -/
theorem c3_cache_write_on_full_path (o : Oracle) (items : List Item)
    (m : GitData) (w : Nat)
    (h : collectGitlabData o items = Except.ok (m, w)) :
    (builtPools o items = Except.ok [] ∧ w = 0 ∧ m = [])
    ∨ ((∃ pools, builtPools o items = Except.ok pools ∧ pools ≠ []) ∧ w = 1) := by
  unfold collectGitlabData at h
  split at h
  · rename_i hgrp
    left
    injection h with h2
    injection h2 with hm hw
    refine ⟨?_, hw.symm, hm.symm⟩
    unfold builtPools
    rw [hgrp]
    rfl
  · split at h
    · exact Except.noConfusion h
    · rename_i pools heq
      split at h
      · rename_i hpe
        left
        injection h with h2
        injection h2 with hm hw
        subst hpe
        exact ⟨heq, hw.symm, hm.symm⟩
      · rename_i hpe
        right
        injection h with h2
        injection h2 with hm hw
        exact ⟨⟨pools, heq, hpe⟩, hw.symm⟩

/-- An oracle for a fully successful single-repository run. -/
def c3fullOracle : Oracle :=
  { env := some "https://gl.example;tokA"
    cacheRead := none
    clientBuild := fun _ _ => true
    get_project := fun _ => Except.ok demoProject
    subf := fun _ => okFetches
    now := 0 }

/-- The item collection of the fully successful run. -/
def c3fullItems : List Item := [{ repositories := some ["https://gl.example/a/b"] }]

/-- The result map of the fully successful run. -/
def c3result : GitData :=
  match collectGitlabData c3fullOracle c3fullItems with
  | Except.ok (m, _) => m
  | Except.error _ => []

/-- C3 witness: the full-path run reaches the dispatch phase and performs
exactly one cache write. -/
theorem c3_witness :
    (builtPools c3fullOracle c3fullItems = Except.ok [] ∧ (1 : Nat) = 0 ∧ c3result = [])
    ∨ ((∃ pools, builtPools c3fullOracle c3fullItems = Except.ok pools ∧ pools ≠ [])
        ∧ (1 : Nat) = 1) :=
  c3_cache_write_on_full_path c3fullOracle c3fullItems c3result 1 rfl
